import Mathlib

/-!
Verification of the fatigue-estimator and audio-alert-scheduler core of the
vigil-drive-suite dashboard.

The estimator is embedded from the frame handler onFaceMeshResults in
src/components/FaceDetection.tsx: per-frame counters live in a FatigueState
record, the weighted fatigue score and the alert level are pure functions of
the updated counters and the current eye and mouth aspect ratios.

The alert scheduler is embedded from src/hooks/useAudioAlerts.ts (namespace
Hooks) and from the variant hook found in the repository (namespace V0):
playPattern is modelled as a pure function from the last-played timestamp,
the current time and an AudioAlertConfig to the emitted tone and speech
events, and the React effect that arms the repeating timer is modelled as a
step function on an explicit scheduler state.

All real arithmetic of the source is carried out over the rationals, which
is exact for every constant appearing in the code.
-/

namespace VigilDrive

/-! ## Fatigue estimator: data model (FaceDetection.tsx) -/

/-- Detection thresholds from FaceDetection.tsx. -/
def EAR_THRESHOLD : ℚ := 0.21

def MAR_THRESHOLD : ℚ := 0.6

def EAR_CONSEC_FRAMES : ℕ := 20

def MAR_CONSEC_FRAMES : ℕ := 15

/-- The mutable per-session counters of the estimator
(the refs and the yawn counter of FaceDetection.tsx). -/
structure FatigueState where
  /-- earCounterRef: run length of consecutive frames with EAR below 0.21. -/
  earCounter : ℕ
  /-- marCounterRef: run length of consecutive frames with MAR above 0.6. -/
  marCounter : ℕ
  /-- blinkCounterRef: run length of consecutive frames with EAR below 0.18. -/
  blinkCounter : ℕ
  /-- totalBlinkRef: number of counted blinks. -/
  totalBlink : ℕ
  /-- closedEyesFramesRef: number of frames with EAR below 0.21. -/
  closedEyesFrames : ℕ
  /-- totalFramesRef: number of processed frames. -/
  totalFrames : ℕ
  /-- yawnCount state: number of counted yawns. -/
  yawnCount : ℕ
  deriving DecidableEq, Repr

/-- All counters start at zero at the beginning of a session. -/
def initialState : FatigueState := ⟨0, 0, 0, 0, 0, 0, 0⟩

/-! ## Per-frame counter updates (FaceDetection.tsx, onFaceMeshResults) -/

/-- Drowsiness block: EAR below the threshold advances the streak and the
closed-eye frame count, otherwise the streak resets. -/
def drowsinessUpdate (s : FatigueState) (avgEAR : ℚ) : FatigueState :=
  if avgEAR < EAR_THRESHOLD then
    { s with earCounter := s.earCounter + 1,
             closedEyesFrames := s.closedEyesFrames + 1 }
  else
    { s with earCounter := 0 }

/-- Blink block: EAR below 0.18 advances the blink run; when the eye reopens,
a run of length 2 to 5 counts one blink and the run resets. -/
def blinkUpdate (s : FatigueState) (avgEAR : ℚ) : FatigueState :=
  if avgEAR < 0.18 then
    { s with blinkCounter := s.blinkCounter + 1 }
  else
    { s with
      totalBlink :=
        if 2 ≤ s.blinkCounter ∧ s.blinkCounter ≤ 5 then s.totalBlink + 1
        else s.totalBlink,
      blinkCounter := 0 }

/-- Yawn block: MAR above the threshold advances the streak; on reaching
MAR_CONSEC_FRAMES one yawn is counted and the streak resets; MAR at or below
the threshold resets the streak. -/
def yawnUpdate (s : FatigueState) (mar : ℚ) : FatigueState :=
  if mar > MAR_THRESHOLD then
    if s.marCounter + 1 ≥ MAR_CONSEC_FRAMES then
      { s with marCounter := 0, yawnCount := s.yawnCount + 1 }
    else
      { s with marCounter := s.marCounter + 1 }
  else
    { s with marCounter := 0 }

/-- The three detection blocks in source order. -/
def updateCounters (s : FatigueState) (avgEAR mar : ℚ) : FatigueState :=
  yawnUpdate (blinkUpdate (drowsinessUpdate s avgEAR) avgEAR) mar

/-- PERCLOS = closedEyesFrames / totalFrames * 100. -/
def perclosOf (s : FatigueState) : ℚ :=
  (s.closedEyesFrames : ℚ) / (s.totalFrames : ℚ) * 100

/-- Extrapolated blink rate per minute at an assumed 30 fps. -/
def blinkRateOf (s : FatigueState) : ℚ :=
  (s.totalBlink : ℚ) / (s.totalFrames : ℚ) * 1800

/-! ## Weighted fatigue score (FaceDetection.tsx, lines 244 to 272) -/

/-- JavaScript Math.round: floor of the argument plus one half. -/
def jsRound (q : ℚ) : ℤ := ⌊q + 1 / 2⌋

/-- PERCLOS sub-score: 30 percent PERCLOS saturates the score. -/
def perclosScore (perclos : ℚ) : ℚ := min 100 (perclos / 30 * 100)

/-- EAR sub-score: positive only below the 0.21 threshold. -/
def earScore (avgEAR : ℚ) : ℚ :=
  if avgEAR < EAR_THRESHOLD then
    min 100 ((EAR_THRESHOLD - avgEAR) / EAR_THRESHOLD * 150)
  else 0

/-- Yawn sub-score: five yawns saturate the score. -/
def yawnScore (yawnCount : ℕ) : ℚ := min 100 ((yawnCount : ℚ) / 5 * 100)

/-- Blink-rate sub-score: positive only below 15 blinks per minute. -/
def blinkScore (blinkRate : ℚ) : ℚ :=
  if blinkRate < 15 then min 100 ((15 - blinkRate) / 15 * 80) else 0

/-- Weighted composite fatigue score. -/
def calculatedFatigue (perclos avgEAR : ℚ) (yawnCount : ℕ) (blinkRate : ℚ) : ℤ :=
  jsRound (perclosScore perclos * 0.4 + earScore avgEAR * 0.3 +
    yawnScore yawnCount * 0.2 + blinkScore blinkRate * 0.1)

/-! ## Alert level (FaceDetection.tsx, lines 274 to 285) -/

/-- First matching rule wins, evaluated from the most severe level down. -/
def alertFromScore (fatigue : ℤ) (avgEAR : ℚ) : ℕ :=
  if fatigue > 75 ∨ avgEAR < 0.18 then 3
  else if fatigue > 50 ∨ avgEAR < 0.21 then 2
  else if fatigue > 25 ∨ avgEAR < 0.24 then 1
  else 0

/-! ## One processed frame -/

/-- The per-tick output of the frame handler. -/
structure FrameOutput where
  state : FatigueState
  fatigueLevel : ℤ
  alertLevel : ℕ
  deriving DecidableEq, Repr

/-- One call of onFaceMeshResults. The input is the pair of the averaged eye
aspect ratio and the mouth aspect ratio when a face is detected, and none
otherwise. totalFrames advances before the face check, exactly as in the
source. -/
def processFrame (s : FatigueState) (input : Option (ℚ × ℚ)) : FrameOutput :=
  let s1 : FatigueState := { s with totalFrames := s.totalFrames + 1 }
  match input with
  | none => ⟨s1, 0, 0⟩
  | some (avgEAR, mar) =>
    let s2 := updateCounters s1 avgEAR mar
    let fatigue := calculatedFatigue (perclosOf s2) avgEAR s2.yawnCount (blinkRateOf s2)
    ⟨s2, fatigue, alertFromScore fatigue avgEAR⟩

/-- The state reached after a list of frames. -/
def processFrames (s : FatigueState) (inputs : List (Option (ℚ × ℚ))) : FatigueState :=
  inputs.foldl (fun st f => (processFrame st f).state) s

/-- A frame with the eyes firmly closed and the mouth at rest. -/
def closedFrame : Option (ℚ × ℚ) := some (0.1, 0.2)

/-- A frame with the eyes open and the mouth at rest. -/
def openFrame : Option (ℚ × ℚ) := some (0.3, 0.2)

/-- A frame with the eyes open and the mouth wide open. -/
def yawnFrame : Option (ℚ × ℚ) := some (0.3, 0.7)

/-! ## Audio alerts: shared data model (useAudioAlerts.ts) -/

/-- The four tone patterns of the hook. -/
inductive AlertPattern where
  | single
  | double
  | triple
  | continuous
  deriving DecidableEq, Repr

/-- An AudioAlertConfig record: tone frequency in hertz, tone duration in
seconds, gain volume, pattern kind, and the optional repeat interval in
milliseconds. -/
structure AudioAlertConfig where
  frequency : ℚ
  duration : ℚ
  volume : ℚ
  pattern : AlertPattern
  interval : Option ℕ
  deriving DecidableEq, Repr

/-- One playTone call scheduled by a pattern: the setTimeout delay in
milliseconds together with the tone parameters. -/
structure Tone where
  delayMs : ℚ
  frequency : ℚ
  duration : ℚ
  volume : ℚ
  deriving DecidableEq, Repr

/-- One speech-synthesis utterance scheduled by a pattern: the setTimeout
delay in milliseconds, whether any ongoing speech is cancelled first, and
the utterance parameters. -/
structure SpeechEvent where
  delayMs : ℚ
  cancelsPrior : Bool
  rate : ℚ
  pitch : ℚ
  volume : ℚ
  deriving DecidableEq, Repr

/-- The observable outcome of one playPattern call: the updated last-played
timestamp, whether the pattern actually played, and the scheduled tone and
speech events. -/
structure PlayResult where
  lastPlayed : ℤ
  played : Bool
  tones : List Tone
  speeches : List SpeechEvent
  deriving DecidableEq, Repr

namespace Hooks

/-! Embedding of src/hooks/useAudioAlerts.ts. -/

/-- The ALERT_SOUNDS table of src/hooks/useAudioAlerts.ts, one config per
alert level; level 0 has all-zero fields and no interval. -/
def ALERT_SOUNDS : ℕ → AudioAlertConfig
  | 1 => ⟨440, 0.2, 0.15, .single, some 8000⟩
  | 2 => ⟨880, 0.3, 0.25, .double, some 4000⟩
  | 3 => ⟨1320, 0.4, 0.35, .continuous, some 2000⟩
  | _ => ⟨0, 0, 0, .single, none⟩

/-- The tones scheduled by the switch of playPattern in
src/hooks/useAudioAlerts.ts. The continuous branch plays three beeps at the
config frequency, at 0.7 times the duration and full volume, spaced by half
the duration; no speech is involved anywhere in this file. -/
def patternTones (config : AudioAlertConfig) : List Tone :=
  match config.pattern with
  | .single => [⟨0, config.frequency, config.duration, config.volume⟩]
  | .double =>
      [⟨0, config.frequency, config.duration, config.volume⟩,
       ⟨config.duration * 1000 + 100, config.frequency, config.duration, config.volume⟩]
  | .triple =>
      (List.range 3).map fun i =>
        ⟨(i : ℚ) * (config.duration * 1000 + 100),
         config.frequency, config.duration, config.volume⟩
  | .continuous =>
      (List.range 3).map fun i =>
        ⟨(i : ℚ) * (config.duration * 1000 * 0.5),
         config.frequency, config.duration * 0.7, config.volume⟩

/-- playPattern of src/hooks/useAudioAlerts.ts: the play is suppressed when
the config has a truthy interval and less than that interval elapsed since
lastPlayed; otherwise lastPlayed becomes now and the pattern tones are
scheduled. -/
def playPattern (lastPlayed now : ℤ) (config : AudioAlertConfig) : PlayResult :=
  match config.interval with
  | some iv =>
      if iv ≠ 0 ∧ now - lastPlayed < (iv : ℤ) then ⟨lastPlayed, false, [], []⟩
      else ⟨now, true, patternTones config, []⟩
  | none => ⟨now, true, patternTones config, []⟩

/-- playManualAlert: looks up the level config and calls playPattern. -/
def playManualAlert (level : ℕ) (lastPlayed now : ℤ) : PlayResult :=
  playPattern lastPlayed now (ALERT_SOUNDS level)

/-! ### The effect that owns the repeat timer

The useEffect with dependencies (alertLevel, enabled) is modelled as a step
function on an explicit scheduler state. armed lists the identifiers of the
live setInterval timers (fresh identifiers are drawn from nextId), and
intervalRef mirrors the ref cell holding the current timer handle. React
runs the cleanup of the previous effect before the new body, so every step
first clears the referenced timer; the body then either clears again and
stops (disabled or level 0) or plays immediately and arms a new timer. -/

/-- The scheduler state: fresh-identifier counter, live interval timers, and
the intervalRef cell. -/
structure SchedulerState where
  nextId : ℕ
  armed : List ℕ
  intervalRef : Option ℕ
  deriving DecidableEq, Repr

/-- Initial scheduler state: no timer armed, empty ref. -/
def initScheduler : SchedulerState := ⟨0, [], none⟩

/-- clearInterval on the referenced timer followed by nulling the ref;
a no-op when the ref is empty. -/
def clearRef (s : SchedulerState) : SchedulerState :=
  match s.intervalRef with
  | none => s
  | some t => ⟨s.nextId, s.armed.filter fun x => x ≠ t, none⟩

/-- One run of the effect after its dependencies changed: previous cleanup,
then the body. Returns the new state and whether a playPattern attempt was
made. -/
def effectStep (s : SchedulerState) (enabled : Bool) (level : ℕ) :
    SchedulerState × Bool :=
  let s0 := clearRef s
  if enabled = false ∨ level = 0 then
    (clearRef s0, false)
  else
    match (ALERT_SOUNDS level).interval with
    | some _ => (⟨s0.nextId + 1, s0.armed ++ [s0.nextId], some s0.nextId⟩, true)
    | none => (s0, true)

/-- The scheduler state after a sequence of dependency changes. -/
def runScheduler (inputs : List (Bool × ℕ)) : SchedulerState :=
  inputs.foldl (fun s p => (effectStep s p.1 p.2).1) initScheduler

/-- The invariant tying the ref cell to the set of live timers: either the
ref is empty and no timer is armed, or the armed list is exactly the
referenced timer and every identifier in use is below the fresh counter. -/
def SchedulerInv (s : SchedulerState) : Prop :=
  (s.intervalRef = none ∧ s.armed = []) ∨
  (∃ t, s.intervalRef = some t ∧ s.armed = [t] ∧ t < s.nextId)

end Hooks

namespace V0

/-! Embedding of the variant hook file of the repository whose continuous
branch plays an escalating frequency sweep with a voice alert
(src/unnamed/part_000). Its playTone, throttle, effect and playManualAlert
are identical in shape to the Hooks namespace; only the sound table and the
pattern rendering differ. -/

/-- The ALERT_SOUNDS table of the variant hook. -/
def ALERT_SOUNDS : ℕ → AudioAlertConfig
  | 1 => ⟨400, 0.4, 0.12, .single, some 10000⟩
  | 2 => ⟨550, 0.5, 0.18, .double, some 6000⟩
  | 3 => ⟨700, 0.6, 0.25, .continuous, some 3000⟩
  | _ => ⟨0, 0, 0, .single, none⟩

/-- speakWakeUp of the variant hook: cancels any ongoing speech, then speaks
at rate 0.9, pitch 1.0, volume 0.7. -/
def speakWakeUpEvent (delayMs : ℚ) : SpeechEvent := ⟨delayMs, true, 0.9, 1.0, 0.7⟩

/-- The tones scheduled by the switch of the variant playPattern. The
continuous branch sweeps from 0.85 to 1.15 times the config frequency in
three steps, each at 0.8 times the duration and 0.9 times the volume,
spaced by 0.6 times the duration. -/
def patternTones (config : AudioAlertConfig) : List Tone :=
  match config.pattern with
  | .single => [⟨0, config.frequency, config.duration, config.volume⟩]
  | .double =>
      [⟨0, config.frequency, config.duration, config.volume⟩,
       ⟨config.duration * 1000 + 100, config.frequency, config.duration, config.volume⟩]
  | .triple =>
      (List.range 3).map fun i =>
        ⟨(i : ℚ) * (config.duration * 1000 + 100),
         config.frequency, config.duration, config.volume⟩
  | .continuous =>
      (List.range 3).map fun i =>
        ⟨(i : ℚ) * (config.duration * 1000 * 0.6),
         config.frequency * 0.85 +
           (config.frequency * 1.15 - config.frequency * 0.85) * ((i : ℚ) / 2),
         config.duration * 0.8, config.volume * 0.9⟩

/-- The speech events scheduled by the variant playPattern: the continuous
branch queues speakWakeUp 500 milliseconds in; the other branches are
silent. -/
def patternSpeeches (config : AudioAlertConfig) : List SpeechEvent :=
  match config.pattern with
  | .continuous => [speakWakeUpEvent 500]
  | _ => []

/-- playPattern of the variant hook: same throttle as the main hook, but the
continuous branch also schedules the voice alert. -/
def playPattern (lastPlayed now : ℤ) (config : AudioAlertConfig) : PlayResult :=
  match config.interval with
  | some iv =>
      if iv ≠ 0 ∧ now - lastPlayed < (iv : ℤ) then ⟨lastPlayed, false, [], []⟩
      else ⟨now, true, patternTones config, patternSpeeches config⟩
  | none => ⟨now, true, patternTones config, patternSpeeches config⟩

end V0

/-! ## Helper lemmas -/

theorem jsRound_nonneg {q : ℚ} (h : 0 ≤ q) : 0 ≤ jsRound q := by
  unfold jsRound
  exact Int.le_floor.mpr (by push_cast; linarith)

theorem jsRound_le_100 {q : ℚ} (h : q ≤ 100) : jsRound q ≤ 100 := by
  unfold jsRound
  have hlt : ⌊q + 1 / 2⌋ < 101 := Int.floor_lt.mpr (by push_cast; linarith)
  omega

theorem perclosScore_bounds {p : ℚ} (hp : 0 ≤ p) :
    0 ≤ perclosScore p ∧ perclosScore p ≤ 100 := by
  unfold perclosScore
  constructor
  · exact le_min (by norm_num) (by positivity)
  · exact min_le_left _ _

theorem earScore_bounds (e : ℚ) : 0 ≤ earScore e ∧ earScore e ≤ 100 := by
  unfold earScore EAR_THRESHOLD
  split_ifs with h
  · refine ⟨le_min (by norm_num) ?_, min_le_left _ _⟩
    have : (0 : ℚ) < 0.21 - e := by linarith
    positivity
  · norm_num

theorem yawnScore_bounds (y : ℕ) : 0 ≤ yawnScore y ∧ yawnScore y ≤ 100 := by
  unfold yawnScore
  exact ⟨le_min (by norm_num) (by positivity), min_le_left _ _⟩

theorem blinkScore_bounds (b : ℚ) : 0 ≤ blinkScore b ∧ blinkScore b ≤ 100 := by
  unfold blinkScore
  split_ifs with h
  · refine ⟨le_min (by norm_num) ?_, min_le_left _ _⟩
    have : (0 : ℚ) < 15 - b := by linarith
    positivity
  · norm_num

/-! ## C1: composite fatigue score -/

/-- C1. For every processed frame in which a face is detected, the composite
fatigue score equals round(0.4 perclosScore + 0.3 earScore + 0.2 yawnScore +
0.1 blinkScore) with the four sub-scores as given in the spec, and the
returned score lies in the interval from 0 to 100 whenever the PERCLOS input
is non-negative. -/
theorem fatigue_score_weighted_and_bounded (p e : ℚ) (y : ℕ) (b : ℚ)
    (hp : 0 ≤ p) :
    calculatedFatigue p e y b =
      jsRound (0.4 * min 100 (p / 30 * 100) +
        0.3 * (if e < 0.21 then min 100 ((0.21 - e) / 0.21 * 150) else 0) +
        0.2 * min 100 ((y : ℚ) / 5 * 100) +
        0.1 * (if b < 15 then min 100 ((15 - b) / 15 * 80) else 0)) ∧
    0 ≤ calculatedFatigue p e y b ∧ calculatedFatigue p e y b ≤ 100 := by
  have h1 := perclosScore_bounds hp
  have h2 := earScore_bounds e
  have h3 := yawnScore_bounds y
  have h4 := blinkScore_bounds b
  refine ⟨?_, ?_, ?_⟩
  · unfold calculatedFatigue perclosScore earScore yawnScore blinkScore EAR_THRESHOLD
    congr 1
    ring
  · exact jsRound_nonneg (by linarith [h1.1, h2.1, h3.1, h4.1])
  · exact jsRound_le_100 (by linarith [h1.2, h2.2, h3.2, h4.2])

/-- Concrete check of C1 at PERCLOS 0, EAR 0.3, no yawns, blink rate 15. -/
theorem fatigue_score_weighted_and_bounded_check :
    0 ≤ calculatedFatigue 0 0.3 0 15 ∧ calculatedFatigue 0 0.3 0 15 ≤ 100 :=
  (fatigue_score_weighted_and_bounded 0 0.3 0 15 (le_refl 0)).2

/-! ## C2: alert-level thresholding -/

/-- C2. The alert level is computed by first-match evaluation from high to
low severity: level 3 exactly when fatigue exceeds 75 or EAR is below 0.18,
level 2 exactly when that fails and fatigue exceeds 50 or EAR is below 0.21,
level 1 exactly when both fail and fatigue exceeds 25 or EAR is below 0.24,
and level 0 otherwise; at the non-triggering EAR 0.3, fatigue 26 gives
level 1, 51 gives 2, 76 gives 3 and 24 gives 0. -/
theorem alert_level_thresholds :
    (∀ (f : ℤ) (e : ℚ),
      (alertFromScore f e = 3 ↔ 75 < f ∨ e < 0.18) ∧
      (alertFromScore f e = 2 ↔ (f ≤ 75 ∧ 0.18 ≤ e) ∧ (50 < f ∨ e < 0.21)) ∧
      (alertFromScore f e = 1 ↔ (f ≤ 50 ∧ 0.21 ≤ e) ∧ (25 < f ∨ e < 0.24)) ∧
      (alertFromScore f e = 0 ↔ f ≤ 25 ∧ 0.24 ≤ e)) ∧
    alertFromScore 26 0.3 = 1 ∧ alertFromScore 51 0.3 = 2 ∧
    alertFromScore 76 0.3 = 3 ∧ alertFromScore 24 0.3 = 0 := by
  constructor
  · intro f e
    unfold alertFromScore
    split_ifs with h1 h2 h3
    · refine ⟨iff_of_true rfl h1, iff_of_false (by decide) ?_,
        iff_of_false (by decide) ?_, iff_of_false (by decide) ?_⟩
      · rintro ⟨⟨hf, he⟩, -⟩
        rcases h1 with h | h
        · exact absurd h (not_lt.mpr hf)
        · exact absurd h (not_lt.mpr he)
      · rintro ⟨⟨hf, he⟩, -⟩
        rcases h1 with h | h
        · exact absurd h (not_lt.mpr (hf.trans (by norm_num)))
        · exact absurd h (not_lt.mpr (le_trans (by norm_num) he))
      · rintro ⟨hf, he⟩
        rcases h1 with h | h
        · exact absurd h (not_lt.mpr (hf.trans (by norm_num)))
        · exact absurd h (not_lt.mpr (le_trans (by norm_num) he))
    · push_neg at h1
      refine ⟨iff_of_false (by decide) ?_, iff_of_true rfl ⟨h1, h2⟩,
        iff_of_false (by decide) ?_, iff_of_false (by decide) ?_⟩
      · rintro (h | h)
        exacts [absurd h (not_lt.mpr h1.1), absurd h (not_lt.mpr h1.2)]
      · rintro ⟨⟨hf, he⟩, -⟩
        rcases h2 with h | h
        · exact absurd h (not_lt.mpr hf)
        · exact absurd h (not_lt.mpr he)
      · rintro ⟨hf, he⟩
        rcases h2 with h | h
        · exact absurd h (not_lt.mpr (hf.trans (by norm_num)))
        · exact absurd h (not_lt.mpr (le_trans (by norm_num) he))
    · push_neg at h1 h2
      refine ⟨iff_of_false (by decide) ?_, iff_of_false (by decide) ?_,
        iff_of_true rfl ⟨h2, h3⟩, iff_of_false (by decide) ?_⟩
      · rintro (h | h)
        exacts [absurd h (not_lt.mpr h1.1), absurd h (not_lt.mpr h1.2)]
      · rintro ⟨-, h | h⟩
        exacts [absurd h (not_lt.mpr h2.1), absurd h (not_lt.mpr h2.2)]
      · rintro ⟨hf, he⟩
        rcases h3 with h | h
        · exact absurd h (not_lt.mpr hf)
        · exact absurd h (not_lt.mpr he)
    · push_neg at h1 h2 h3
      refine ⟨iff_of_false (by decide) ?_, iff_of_false (by decide) ?_,
        iff_of_false (by decide) ?_, iff_of_true rfl h3⟩
      · rintro (h | h)
        exacts [absurd h (not_lt.mpr h1.1), absurd h (not_lt.mpr h1.2)]
      · rintro ⟨-, h | h⟩
        exacts [absurd h (not_lt.mpr h2.1), absurd h (not_lt.mpr h2.2)]
      · rintro ⟨-, h | h⟩
        exacts [absurd h (not_lt.mpr h3.1), absurd h (not_lt.mpr h3.2)]
  · refine ⟨?_, ?_, ?_, ?_⟩ <;> norm_num [alertFromScore]

/-- Concrete check of C2 at the stated fatigue values. -/
theorem alert_level_thresholds_check :
    alertFromScore 26 0.3 = 1 ∧ alertFromScore 24 0.3 = 0 :=
  ⟨alert_level_thresholds.2.1, alert_level_thresholds.2.2.2.2⟩

/-! ## C3: a tick with no face -/

/-- C3, counterexample. On a processed frame with no face, the total frame
counter does change: starting from the fresh session state it moves from 0
to 1, contradicting the claim that no FatigueState counter changes value
across such a tick. -/
theorem noface_totalFrames_advances :
    (processFrame initialState none).state.totalFrames ≠ initialState.totalFrames := by
  decide

/-- C3, amended. On a processed frame with no face the estimator reports
fatigue score 0 and alert level 0, and every counter except totalFrames
keeps its value, while totalFrames advances by one (the source increments
totalFramesRef before the face check). -/
theorem noface_tick_reports_zero (s : FatigueState) :
    (processFrame s none).fatigueLevel = 0 ∧
    (processFrame s none).alertLevel = 0 ∧
    (processFrame s none).state.earCounter = s.earCounter ∧
    (processFrame s none).state.marCounter = s.marCounter ∧
    (processFrame s none).state.blinkCounter = s.blinkCounter ∧
    (processFrame s none).state.totalBlink = s.totalBlink ∧
    (processFrame s none).state.closedEyesFrames = s.closedEyesFrames ∧
    (processFrame s none).state.yawnCount = s.yawnCount ∧
    (processFrame s none).state.totalFrames = s.totalFrames + 1 :=
  ⟨rfl, rfl, rfl, rfl, rfl, rfl, rfl, rfl, rfl⟩

/-- Concrete check of C3 amended at the fresh session state. -/
theorem noface_tick_reports_zero_check :
    (processFrame initialState none).fatigueLevel = 0 ∧
    (processFrame initialState none).alertLevel = 0 ∧
    (processFrame initialState none).state.earCounter = initialState.earCounter ∧
    (processFrame initialState none).state.marCounter = initialState.marCounter ∧
    (processFrame initialState none).state.blinkCounter = initialState.blinkCounter ∧
    (processFrame initialState none).state.totalBlink = initialState.totalBlink ∧
    (processFrame initialState none).state.closedEyesFrames =
      initialState.closedEyesFrames ∧
    (processFrame initialState none).state.yawnCount = initialState.yawnCount ∧
    (processFrame initialState none).state.totalFrames =
      initialState.totalFrames + 1 :=
  noface_tick_reports_zero initialState

/-! ## Per-frame field lemmas for the scenario claims -/

theorem processFrames_nil (s : FatigueState) : processFrames s [] = s := rfl

theorem processFrames_cons (s : FatigueState) (a : Option (ℚ × ℚ))
    (l : List (Option (ℚ × ℚ))) :
    processFrames s (a :: l) = processFrames (processFrame s a).state l := rfl

theorem processFrames_append (s : FatigueState) (l1 l2 : List (Option (ℚ × ℚ))) :
    processFrames s (l1 ++ l2) = processFrames (processFrames s l1) l2 :=
  List.foldl_append _ _ _ _

/-- A closed-eye frame advances the blink run and leaves the blink total
alone. -/
theorem closedFrame_blink (s : FatigueState) :
    (processFrame s closedFrame).state.blinkCounter = s.blinkCounter + 1 ∧
    (processFrame s closedFrame).state.totalBlink = s.totalBlink := by
  norm_num [processFrame, updateCounters, drowsinessUpdate, blinkUpdate,
    yawnUpdate, closedFrame, EAR_THRESHOLD, MAR_THRESHOLD]

/-- An open-eye frame ends the blink run: the total advances exactly when
the ended run had length 2 to 5, and the run resets. -/
theorem openFrame_blink (s : FatigueState) :
    (processFrame s openFrame).state.blinkCounter = 0 ∧
    (processFrame s openFrame).state.totalBlink =
      (if 2 ≤ s.blinkCounter ∧ s.blinkCounter ≤ 5 then s.totalBlink + 1
       else s.totalBlink) := by
  norm_num [processFrame, updateCounters, drowsinessUpdate, blinkUpdate,
    yawnUpdate, openFrame, EAR_THRESHOLD, MAR_THRESHOLD]

/-- A high-MAR frame advances the yawn streak, counting one yawn and
resetting the streak when it reaches 15. -/
theorem yawnFrame_step (s : FatigueState) :
    (processFrame s yawnFrame).state.marCounter =
      (if s.marCounter + 1 ≥ 15 then 0 else s.marCounter + 1) ∧
    (processFrame s yawnFrame).state.yawnCount =
      (if s.marCounter + 1 ≥ 15 then s.yawnCount + 1 else s.yawnCount) := by
  norm_num [processFrame, updateCounters, drowsinessUpdate, blinkUpdate,
    yawnUpdate, yawnFrame, EAR_THRESHOLD, MAR_THRESHOLD, MAR_CONSEC_FRAMES]
  split_ifs <;> simp

/-- A low-MAR frame resets the yawn streak without counting a yawn. -/
theorem openFrame_yawn (s : FatigueState) :
    (processFrame s openFrame).state.marCounter = 0 ∧
    (processFrame s openFrame).state.yawnCount = s.yawnCount := by
  norm_num [processFrame, updateCounters, drowsinessUpdate, blinkUpdate,
    yawnUpdate, openFrame, EAR_THRESHOLD, MAR_THRESHOLD]

/-- After a run of closed-eye frames the blink run has grown by the run
length and the blink total is untouched. -/
theorem closed_run_blink (L : ℕ) : ∀ s : FatigueState,
    (processFrames s (List.replicate L closedFrame)).blinkCounter =
      s.blinkCounter + L ∧
    (processFrames s (List.replicate L closedFrame)).totalBlink = s.totalBlink := by
  induction L with
  | zero => intro s; simp [processFrames_nil]
  | succ n ih =>
      intro s
      rw [List.replicate_succ, processFrames_cons]
      have h := closedFrame_blink s
      have h2 := ih (processFrame s closedFrame).state
      rw [h2.1, h2.2, h.1, h.2]
      omega

/-! ## C5: blink counting -/

/-- C5. A blink is counted exactly when a closed-eye run (EAR below 0.18)
ends with run length between 2 and 5 frames: processing such a run followed
by a reopening frame advances totalBlink by exactly one, and an ended run of
any other length (such as 1 or 8) leaves totalBlink unchanged. -/
theorem blink_counted_iff_run_2_to_5 (s : FatigueState) (L : ℕ)
    (h : s.blinkCounter = 0) :
    (processFrames s (List.replicate L closedFrame ++ [openFrame])).totalBlink =
      (if 2 ≤ L ∧ L ≤ 5 then s.totalBlink + 1 else s.totalBlink) := by
  rw [processFrames_append]
  have hrun := closed_run_blink L s
  have hopen := openFrame_blink (processFrames s (List.replicate L closedFrame))
  have hmid : (processFrames s (List.replicate L closedFrame)).blinkCounter = L := by
    rw [hrun.1, h, Nat.zero_add]
  rw [show processFrames (processFrames s (List.replicate L closedFrame)) [openFrame] =
      (processFrame (processFrames s (List.replicate L closedFrame)) openFrame).state
    from rfl]
  rw [hopen.2, hmid, hrun.2]

/-- Concrete check of C5: a three-frame closed run then a reopening counts
one blink from the fresh session state. -/
theorem blink_counted_iff_run_2_to_5_check :
    (processFrames initialState (List.replicate 3 closedFrame ++ [openFrame])).totalBlink =
      (if 2 ≤ 3 ∧ 3 ≤ 5 then initialState.totalBlink + 1 else initialState.totalBlink) :=
  blink_counted_iff_run_2_to_5 initialState 3 rfl

/-! ## C6: yawn counting -/

/-- After a run of high-MAR frames starting with streak value c at most 14,
the yawn count has grown by one per full 15 frames of the combined run and
the streak holds the remainder. -/
theorem yawn_run (n : ℕ) : ∀ (s : FatigueState), s.marCounter ≤ 14 →
    (processFrames s (List.replicate n yawnFrame)).yawnCount =
      s.yawnCount + (s.marCounter + n) / 15 ∧
    (processFrames s (List.replicate n yawnFrame)).marCounter =
      (s.marCounter + n) % 15 := by
  induction n with
  | zero =>
      intro s hc
      simp [processFrames_nil]
      omega
  | succ m ih =>
      intro s hc
      rw [List.replicate_succ, processFrames_cons]
      have hstep := yawnFrame_step s
      have hmc : (processFrame s yawnFrame).state.marCounter =
          (s.marCounter + 1) % 15 := by
        rw [hstep.1]; split_ifs with h <;> omega
      have hyc : (processFrame s yawnFrame).state.yawnCount =
          s.yawnCount + (s.marCounter + 1) / 15 := by
        rw [hstep.2]; split_ifs with h <;> omega
      have hrec := ih (processFrame s yawnFrame).state (by rw [hmc]; omega)
      rw [hrec.1, hrec.2, hmc, hyc]
      omega

/-- C6. From a reset streak, fifteen consecutive high-MAR frames count
exactly one yawn and reset the streak, thirty count exactly two, any run
shorter than fifteen counts none, and a frame with MAR at or below 0.6
resets the streak without counting a yawn. -/
theorem yawn_counting (s : FatigueState) (h : s.marCounter = 0) :
    (processFrames s (List.replicate 15 yawnFrame)).yawnCount = s.yawnCount + 1 ∧
    (processFrames s (List.replicate 15 yawnFrame)).marCounter = 0 ∧
    (processFrames s (List.replicate 30 yawnFrame)).yawnCount = s.yawnCount + 2 ∧
    (∀ k, k < 15 →
      (processFrames s (List.replicate k yawnFrame)).yawnCount = s.yawnCount) ∧
    (∀ t : FatigueState, (processFrame t openFrame).state.marCounter = 0 ∧
      (processFrame t openFrame).state.yawnCount = t.yawnCount) := by
  have h15 := yawn_run 15 s (by omega)
  have h30 := yawn_run 30 s (by omega)
  rw [h] at h15 h30
  refine ⟨by rw [h15.1], by rw [h15.2], by rw [h30.1], ?_, openFrame_yawn⟩
  intro k hk
  have hked := yawn_run k s (by omega)
  rw [h] at hked
  rw [hked.1, Nat.zero_add, Nat.div_eq_of_lt hk, Nat.add_zero]

/-- Concrete check of C6: fifteen high-MAR frames from the fresh session
state count one yawn, thirty count two. -/
theorem yawn_counting_check :
    (processFrames initialState (List.replicate 15 yawnFrame)).yawnCount =
      initialState.yawnCount + 1 ∧
    (processFrames initialState (List.replicate 30 yawnFrame)).yawnCount =
      initialState.yawnCount + 2 :=
  ⟨(yawn_counting initialState rfl).1, (yawn_counting initialState rfl).2.2.1⟩

/-! ## C7: counter invariant and PERCLOS -/

/-- Every frame advances totalFrames by one and closedEyesFrames by at most
one. -/
theorem frame_closed_total (s : FatigueState) (inp : Option (ℚ × ℚ)) :
    (processFrame s inp).state.totalFrames = s.totalFrames + 1 ∧
    ((processFrame s inp).state.closedEyesFrames = s.closedEyesFrames ∨
     (processFrame s inp).state.closedEyesFrames = s.closedEyesFrames + 1) := by
  cases inp with
  | none => exact ⟨rfl, Or.inl rfl⟩
  | some p =>
      obtain ⟨e, m⟩ := p
      simp only [processFrame, updateCounters, drowsinessUpdate, blinkUpdate,
        yawnUpdate]
      split_ifs <;> simp

/-- A face frame with EAR below the threshold advances both
closedEyesFrames and totalFrames by one. -/
theorem closed_face_frame (s : FatigueState) (e m : ℚ) (he : e < EAR_THRESHOLD) :
    (processFrame s (some (e, m))).state.closedEyesFrames =
      s.closedEyesFrames + 1 ∧
    (processFrame s (some (e, m))).state.totalFrames = s.totalFrames + 1 := by
  simp only [processFrame, updateCounters, drowsinessUpdate, blinkUpdate,
    yawnUpdate, if_pos he]
  split_ifs <;> simp

/-- The ratio invariant is preserved along any processed-frame sequence. -/
theorem inv_preserved (inputs : List (Option (ℚ × ℚ))) : ∀ s : FatigueState,
    s.closedEyesFrames ≤ s.totalFrames →
    (processFrames s inputs).closedEyesFrames ≤
      (processFrames s inputs).totalFrames := by
  induction inputs with
  | nil => intro s h; exact h
  | cons a l ih =>
      intro s h
      rw [processFrames_cons]
      apply ih
      have := frame_closed_total s a
      rcases this.2 with h2 | h2 <;> omega

/-- PERCLOS lies between 0 and 100 whenever closedEyesFrames is at most
totalFrames (for an empty session the ratio degenerates to zero). -/
theorem perclos_bounds (s : FatigueState)
    (h : s.closedEyesFrames ≤ s.totalFrames) :
    0 ≤ perclosOf s ∧ perclosOf s ≤ 100 := by
  unfold perclosOf
  constructor
  · positivity
  · rcases Nat.eq_zero_or_pos s.totalFrames with h0 | hpos
    · have hc : s.closedEyesFrames = 0 := by omega
      rw [h0, hc]
      norm_num
    · have ht : (0 : ℚ) < (s.totalFrames : ℚ) := by exact_mod_cast hpos
      have hle : (s.closedEyesFrames : ℚ) / (s.totalFrames : ℚ) ≤ 1 := by
        rw [div_le_one ht]
        exact_mod_cast h
      nlinarith

/-- C7, counterexample. PERCLOS is not non-decreasing within a session:
from the fresh state, one closed-eye frame gives PERCLOS 100, and the next
open-eye frame drops it to 50. -/
theorem perclos_can_decrease :
    perclosOf (processFrames initialState [closedFrame, openFrame]) <
      perclosOf (processFrames initialState [closedFrame]) := by
  norm_num [processFrames, processFrame, updateCounters, drowsinessUpdate,
    blinkUpdate, yawnUpdate, closedFrame, openFrame, initialState,
    EAR_THRESHOLD, MAR_THRESHOLD, perclosOf]

/-- C7, amended. Along every processed-frame sequence from the fresh state
all counters are non-negative (they are naturals) with closedEyesFrames at
most totalFrames, hence PERCLOS lies between 0 and 100; and PERCLOS is
non-decreasing across a frame whose face is detected with EAR below the
0.21 threshold (it can decrease on other frames, as witnessed above). -/
theorem perclos_invariant_and_closed_monotone :
    (∀ inputs : List (Option (ℚ × ℚ)),
      (processFrames initialState inputs).closedEyesFrames ≤
        (processFrames initialState inputs).totalFrames ∧
      0 ≤ perclosOf (processFrames initialState inputs) ∧
      perclosOf (processFrames initialState inputs) ≤ 100) ∧
    (∀ (s : FatigueState) (e m : ℚ),
      s.closedEyesFrames ≤ s.totalFrames → e < EAR_THRESHOLD →
      perclosOf s ≤ perclosOf (processFrame s (some (e, m))).state) := by
  constructor
  · intro inputs
    have hinv := inv_preserved inputs initialState (le_refl 0)
    exact ⟨hinv, perclos_bounds _ hinv⟩
  · intro s e m hinv he
    have hstep := closed_face_frame s e m he
    unfold perclosOf
    rw [hstep.1, hstep.2]
    rcases Nat.eq_zero_or_pos s.totalFrames with h0 | hpos
    · have hc : s.closedEyesFrames = 0 := by omega
      rw [h0, hc]
      norm_num
    · have ht : (0 : ℚ) < (s.totalFrames : ℚ) := by exact_mod_cast hpos
      have ht1 : (0 : ℚ) < ((s.totalFrames : ℚ) + 1) := by linarith
      have hcast : (s.closedEyesFrames : ℚ) ≤ (s.totalFrames : ℚ) := by
        exact_mod_cast hinv
      have key : (s.closedEyesFrames : ℚ) / (s.totalFrames : ℚ) ≤
          ((s.closedEyesFrames : ℚ) + 1) / ((s.totalFrames : ℚ) + 1) := by
        rw [div_le_div_iff₀ ht ht1]
        nlinarith
      push_cast
      nlinarith

/-- Concrete check of C7: PERCLOS does not decrease across a closed-eye
frame from the fresh state. -/
theorem perclos_invariant_and_closed_monotone_check :
    perclosOf initialState ≤
      perclosOf (processFrame initialState (some (0.1, 0.2))).state :=
  perclos_invariant_and_closed_monotone.2 initialState 0.1 0.2 (le_refl 0)
    (by norm_num [EAR_THRESHOLD])

/-! ## C4: throttle on every play attempt -/

/-- C4. For every play attempt at a level whose config carries a repeat
interval (the repeat timer, a level change and playManualAlert all funnel
into the same playPattern), the play is suppressed with no tone and an
unchanged timestamp when less than the interval elapsed since the last
actual play, and otherwise the pattern plays and the timestamp becomes the
current time. -/
theorem playPattern_throttle (l : ℕ) (last now : ℤ) (iv : ℕ)
    (hiv : (Hooks.ALERT_SOUNDS l).interval = some iv) :
    (now - last < (iv : ℤ) →
      Hooks.playPattern last now (Hooks.ALERT_SOUNDS l) = ⟨last, false, [], []⟩) ∧
    ((iv : ℤ) ≤ now - last →
      Hooks.playPattern last now (Hooks.ALERT_SOUNDS l) =
        ⟨now, true, Hooks.patternTones (Hooks.ALERT_SOUNDS l), []⟩) ∧
    Hooks.playManualAlert l last now =
      Hooks.playPattern last now (Hooks.ALERT_SOUNDS l) := by
  have hiv0 : iv ≠ 0 := by
    rcases l with _ | _ | _ | _ | n <;>
      simp [Hooks.ALERT_SOUNDS] at hiv <;> omega
  refine ⟨fun h => ?_, fun h => ?_, rfl⟩
  · simp [Hooks.playPattern, hiv, hiv0, h]
  · simp [Hooks.playPattern, hiv, not_lt.mpr h]

/-- Concrete check of C4 at level 1: a play 500 ms after the last one is
suppressed, a play 8000 ms after goes through. -/
theorem playPattern_throttle_check :
    Hooks.playPattern 0 500 (Hooks.ALERT_SOUNDS 1) = ⟨0, false, [], []⟩ ∧
    Hooks.playPattern 0 8000 (Hooks.ALERT_SOUNDS 1) =
      ⟨8000, true, Hooks.patternTones (Hooks.ALERT_SOUNDS 1), []⟩ :=
  ⟨(playPattern_throttle 1 0 500 8000 rfl).1 (by norm_num),
   (playPattern_throttle 1 0 8000 8000 rfl).2.1 (by norm_num)⟩

/-! ## C8: at most one recurring timer -/

/-- Clearing the ref of a state satisfying the invariant empties the armed
list. -/
theorem clearRef_spec (s : Hooks.SchedulerState) (h : Hooks.SchedulerInv s) :
    Hooks.clearRef s = ⟨s.nextId, [], none⟩ := by
  obtain ⟨nid, armed, ref⟩ := s
  rcases h with ⟨h1, h2⟩ | ⟨t, h1, h2, h3⟩ <;>
    simp_all [Hooks.clearRef]

/-- One effect run preserves the scheduler invariant. -/
theorem effectStep_inv (s : Hooks.SchedulerState) (e : Bool) (l : ℕ)
    (h : Hooks.SchedulerInv s) :
    Hooks.SchedulerInv (Hooks.effectStep s e l).1 := by
  simp only [Hooks.effectStep, clearRef_spec s h]
  by_cases hid : e = false ∨ l = 0
  · rw [if_pos hid]
    exact Or.inl ⟨rfl, rfl⟩
  · rw [if_neg hid]
    rcases hin : (Hooks.ALERT_SOUNDS l).interval with _ | iv
    · exact Or.inl ⟨rfl, rfl⟩
    · exact Or.inr ⟨s.nextId, rfl, by simp, Nat.lt_succ_self _⟩

/-- The invariant holds along every run from the initial scheduler state. -/
theorem runScheduler_inv (inputs : List (Bool × ℕ)) :
    Hooks.SchedulerInv (Hooks.runScheduler inputs) := by
  have general : ∀ (rest : List (Bool × ℕ)) (s : Hooks.SchedulerState),
      Hooks.SchedulerInv s →
      Hooks.SchedulerInv
        (rest.foldl (fun s p => (Hooks.effectStep s p.1 p.2).1) s) := by
    intro rest
    induction rest with
    | nil => intro s hs; exact hs
    | cons a l ih =>
        intro s hs
        exact ih _ (effectStep_inv s a.1 a.2 hs)
  exact general inputs Hooks.initScheduler (Or.inl ⟨rfl, rfl⟩)

/-- C8. The scheduler keeps at most one recurring timer armed along every
run; whenever the level becomes 0 or the enabled flag becomes false the
timer is cancelled, the ref emptied and no pattern is attempted; and a
nonzero level with the hook enabled replaces the timer with a single fresh
one not previously armed. -/
theorem scheduler_single_timer :
    (∀ inputs : List (Bool × ℕ),
      Hooks.SchedulerInv (Hooks.runScheduler inputs) ∧
      (Hooks.runScheduler inputs).armed.length ≤ 1) ∧
    (∀ (s : Hooks.SchedulerState) (e : Bool) (l : ℕ),
      Hooks.SchedulerInv s → (e = false ∨ l = 0) →
      (Hooks.effectStep s e l).1.armed = [] ∧
      (Hooks.effectStep s e l).1.intervalRef = none ∧
      (Hooks.effectStep s e l).2 = false) ∧
    (∀ (s : Hooks.SchedulerState) (l iv : ℕ),
      Hooks.SchedulerInv s → l ≠ 0 →
      (Hooks.ALERT_SOUNDS l).interval = some iv →
      (Hooks.effectStep s true l).1.armed = [s.nextId] ∧
      (Hooks.effectStep s true l).1.intervalRef = some s.nextId ∧
      s.nextId ∉ s.armed ∧
      (Hooks.effectStep s true l).2 = true) := by
  refine ⟨?_, ?_, ?_⟩
  · intro inputs
    refine ⟨runScheduler_inv inputs, ?_⟩
    rcases runScheduler_inv inputs with ⟨-, h2⟩ | ⟨t, -, h2, -⟩ <;> simp [h2]
  · intro s e l h hid
    simp only [Hooks.effectStep, clearRef_spec s h, if_pos hid]
    simp [Hooks.clearRef]
  · intro s l iv h hl hiv
    have hcond : ¬(true = false ∨ l = 0) := by simp [hl]
    simp only [Hooks.effectStep, clearRef_spec s h, if_neg hcond, hiv]
    refine ⟨by simp, by simp, ?_, by simp⟩
    rcases h with ⟨-, h2⟩ | ⟨t, -, h2, h3⟩ <;> simp [h2]
    omega

/-- Concrete check of C8: from a state with timer 0 armed, disabling clears
the timer, and a level change to 2 replaces it with the fresh timer 1. -/
theorem scheduler_single_timer_check :
    (Hooks.effectStep ⟨1, [0], some 0⟩ false 2).1.armed = [] ∧
    (Hooks.effectStep ⟨1, [0], some 0⟩ true 2).1.armed = [1] :=
  ⟨(scheduler_single_timer.2.1 ⟨1, [0], some 0⟩ false 2
      (Or.inr ⟨0, rfl, rfl, Nat.zero_lt_one⟩) (Or.inl rfl)).1,
   (scheduler_single_timer.2.2 ⟨1, [0], some 0⟩ 2 4000
      (Or.inr ⟨0, rfl, rfl, Nat.zero_lt_one⟩) (by decide) rfl).1⟩

/-! ## C9: the continuous pattern -/

/-- C9, counterexample. In the hook at src/hooks/useAudioAlerts.ts, an
unthrottled continuous play at level 3 emits three tones all at the same
frequency 1320 (so no ascending sweep) and schedules no speech at all,
contradicting the claimed sweep-plus-voice output. -/
theorem hooks_continuous_no_sweep_no_speech :
    (Hooks.playPattern 0 9999 (Hooks.ALERT_SOUNDS 3)).played = true ∧
    (Hooks.playPattern 0 9999 (Hooks.ALERT_SOUNDS 3)).tones.map Tone.frequency =
      [1320, 1320, 1320] ∧
    (Hooks.playPattern 0 9999 (Hooks.ALERT_SOUNDS 3)).speeches = [] ∧
    ¬ ((Hooks.playPattern 0 9999 (Hooks.ALERT_SOUNDS 3)).tones.map
        Tone.frequency).Sorted (· < ·) := by
  have hplay : Hooks.playPattern 0 9999 (Hooks.ALERT_SOUNDS 3) =
      ⟨9999, true, Hooks.patternTones (Hooks.ALERT_SOUNDS 3), []⟩ := by
    norm_num [Hooks.playPattern, Hooks.ALERT_SOUNDS]
  have htones : (Hooks.patternTones (Hooks.ALERT_SOUNDS 3)).map Tone.frequency =
      [1320, 1320, 1320] := by
    simp [Hooks.patternTones, Hooks.ALERT_SOUNDS, List.range_succ]
  refine ⟨by rw [hplay], by rw [hplay]; exact htones, by rw [hplay], ?_⟩
  rw [hplay]
  simp only [htones]
  intro hsorted
  exact absurd (List.rel_of_sorted_cons hsorted 1320 (by simp)) (lt_irrefl _)

/-- C9, amended. In the variant hook of the repository (src/unnamed
part 000), a played continuous pattern is a 3-step ascending frequency
sweep from 0.85 to 1.15 times the configured frequency, each step at 0.8
times the configured duration and 0.9 times the configured volume, with a
speech utterance that cancels any prior speech queued 500 ms in, which for
the level-3 config falls strictly between the first and last sweep steps;
the hook at src/hooks/useAudioAlerts.ts instead plays three equal-frequency
beeps with no speech (see the counterexample). -/
theorem v0_continuous_sweep_with_voice (config : AudioAlertConfig)
    (hp : config.pattern = .continuous) (hf : 0 < config.frequency) :
    (V0.patternTones config).map Tone.frequency =
      [config.frequency * 0.85, config.frequency, config.frequency * 1.15] ∧
    config.frequency * 0.85 < config.frequency ∧
    config.frequency < config.frequency * 1.15 ∧
    (V0.patternTones config).map Tone.duration =
      [config.duration * 0.8, config.duration * 0.8, config.duration * 0.8] ∧
    (V0.patternTones config).map Tone.volume =
      [config.volume * 0.9, config.volume * 0.9, config.volume * 0.9] ∧
    V0.patternSpeeches config = [⟨500, true, 0.9, 1.0, 0.7⟩] ∧
    (V0.patternTones (V0.ALERT_SOUNDS 3)).map Tone.delayMs = [0, 360, 720] ∧
    ((0 : ℚ) < 500 ∧ (500 : ℚ) < 720) ∧
    (∀ lastPlayed now : ℤ,
      (V0.playPattern lastPlayed now config).played = true →
      (V0.playPattern lastPlayed now config).tones = V0.patternTones config ∧
      (V0.playPattern lastPlayed now config).speeches =
        V0.patternSpeeches config) := by
  refine ⟨?_, by nlinarith, by nlinarith, ?_, ?_, ?_, ?_, by norm_num, ?_⟩
  · simp [V0.patternTones, hp, List.range_succ]
    norm_num
    ring
  · simp [V0.patternTones, hp, List.range_succ]
  · simp [V0.patternTones, hp, List.range_succ]
  · simp [V0.patternSpeeches, hp, V0.speakWakeUpEvent]
  · simp [V0.patternTones, V0.ALERT_SOUNDS, List.range_succ]
    norm_num
  · intro lastPlayed now
    unfold V0.playPattern
    rcases config.interval with _ | iv
    · exact fun _ => ⟨rfl, rfl⟩
    · dsimp only
      split_ifs <;> simp

/-- Concrete check of C9 at the level-3 config of the variant hook. -/
theorem v0_continuous_sweep_with_voice_check :
    (V0.patternTones (V0.ALERT_SOUNDS 3)).map Tone.frequency =
      [(V0.ALERT_SOUNDS 3).frequency * 0.85, (V0.ALERT_SOUNDS 3).frequency,
       (V0.ALERT_SOUNDS 3).frequency * 1.15] :=
  (v0_continuous_sweep_with_voice (V0.ALERT_SOUNDS 3) rfl
    (by norm_num [V0.ALERT_SOUNDS])).1

/-! ## C10: playManualAlert at level 0 -/

/-- C10. playManualAlert at level 0 is not a no-op: the level-0 config has
no interval, so the throttle is skipped, the last-played timestamp becomes
the current time unconditionally, a single tone with frequency 0, duration
0 and volume 0 is emitted, and the updated timestamp postpones the next
throttled play of each nonzero level by that level's full interval. -/
theorem manual_level0_not_noop (last now : ℤ) :
    Hooks.playManualAlert 0 last now = ⟨now, true, [⟨0, 0, 0, 0⟩], []⟩ ∧
    (∀ t : ℤ, t - now < 8000 →
      (Hooks.playPattern now t (Hooks.ALERT_SOUNDS 1)).played = false) ∧
    (∀ t : ℤ, t - now < 4000 →
      (Hooks.playPattern now t (Hooks.ALERT_SOUNDS 2)).played = false) ∧
    (∀ t : ℤ, t - now < 2000 →
      (Hooks.playPattern now t (Hooks.ALERT_SOUNDS 3)).played = false) := by
  refine ⟨rfl, ?_, ?_, ?_⟩ <;>
    intro t ht <;>
    simp [Hooks.playPattern, Hooks.ALERT_SOUNDS, Hooks.playManualAlert, ht]

/-- Concrete check of C10: the level-0 manual play at time 7 emits the zero
tone and stamps 7, and a level-1 play at time 100 is then suppressed. -/
theorem manual_level0_not_noop_check :
    Hooks.playManualAlert 0 5 7 = ⟨7, true, [⟨0, 0, 0, 0⟩], []⟩ ∧
    (Hooks.playPattern 7 100 (Hooks.ALERT_SOUNDS 1)).played = false :=
  ⟨(manual_level0_not_noop 5 7).1, (manual_level0_not_noop 5 7).2.1 100 (by norm_num)⟩

end VigilDrive
